import Mathlib

/-!
Verification of the conversational-session relay backend
(session store in `src/services/conversationService.js`, relay engine in
`src/services/openRouterService.js`, orchestrator in `src/server.js`).

The JavaScript code is shallowly embedded: the in-memory `Map` of the
session store becomes an association list threaded through each operation,
`Date.now()` becomes an explicit `now : Nat` argument, and a JavaScript
`throw` caught by a caller becomes an `Except` value.  Fields the claims
never observe (the random message id suffix) are omitted; every other
field of the stored objects is kept.
-/

namespace VoiceBackend

/-- Message record as built by `addMessage`
(`conversationService.js` lines 41-46).  `content` is an `Option` because
the orchestrator can pass the JavaScript value `undefined` as content
(`server.js` line 267 reads a property that does not exist); `none` models
`undefined`.  The random `id` field of the source record is not modelled
(no claim observes it). -/
structure Message where
  role : String
  content : Option String
  timestamp : Nat
deriving Repr, DecidableEq

/-- Per-session record stored in the `Map`
(`conversationService.js` lines 15-19). -/
structure Conversation where
  messages : List Message
  createdAt : Nat
  lastAccessed : Nat
deriving Repr, DecidableEq

/-- The store: the `this.conversations` JavaScript `Map`, modelled as an
association list from conversation id to record (insertion order, no
duplicate keys arise from the operations below). -/
abbrev Store := List (String × Conversation)

/-- Lookup in the modelled `Map` (`Map.get`). -/
def mget : Store → String → Option Conversation
  | [], _ => none
  | (k, v) :: rest, key => if k = key then some v else mget rest key

/-- Insert-or-replace in the modelled `Map` (`Map.set`). -/
def mset : Store → String → Conversation → Store
  | [], key, v => [(key, v)]
  | (k, w) :: rest, key, v =>
      if k = key then (key, v) :: rest else (k, w) :: mset rest key v

/-- Removal from the modelled `Map` (`Map.delete`). -/
def mdelete : Store → String → Store
  | [], _ => []
  | (k, w) :: rest, key => if k = key then rest else (k, w) :: mdelete rest key

/-- `this.maxMessagesPerConversation` (`conversationService.js` line 5). -/
def maxMessagesPerConversation : Nat := 50

/-- `this.conversationExpiry` in milliseconds
(`conversationService.js` line 4). -/
def conversationExpiry : Nat := 30 * 60 * 1000

/-- `getConversation(conversationId)` (`conversationService.js` lines
25-32).  On a hit it sets `lastAccessed = Date.now()` and returns the
`messages` array of the record, not the record itself; on a miss it
returns `null` (here `none`).  Note there is no expiry check. -/
def getConversation (now : Nat) (s : Store) (id : String) :
    Store × Option (List Message) :=
  match mget s id with
  | some conv => (mset s id { conv with lastAccessed := now }, some conv.messages)
  | none => (s, none)

/-- `createConversation(conversationId)` (`conversationService.js` lines
13-23).  If the id is absent it inserts a fresh record with
`createdAt = lastAccessed = Date.now()`; it then returns
`this.getConversation(conversationId)`, i.e. the messages array, not the
conversation record. -/
def createConversation (now : Nat) (s : Store) (id : String) :
    Store × Option (List Message) :=
  let s1 := if (mget s id).isSome then s else mset s id ⟨[], now, now⟩
  getConversation now s1 id

/-- Truncation applied after a push (`conversationService.js` lines
50-53): `messages.slice(-maxMessagesPerConversation)` when the length
exceeds the maximum. -/
def clipMessages (msgs : List Message) : List Message :=
  if maxMessagesPerConversation < msgs.length then
    msgs.drop (msgs.length - maxMessagesPerConversation)
  else msgs

/-- `addMessage(conversationId, role, content)` (`conversationService.js`
lines 34-59).  When the id is present in the `Map` the code pushes the new
message, truncates to the most recent `maxMessagesPerConversation`, and
sets `lastAccessed = Date.now()`.  When the id is absent, line 38 assigns
`conversation = this.createConversation(conversationId)`; that call
returns the messages array (see `createConversation`), so line 48
evaluates `conversation.messages.push(message)` on an array whose
`messages` property is `undefined`, raising a `TypeError` after the empty
session has been inserted into the `Map`.  The raised `TypeError` is
modelled as `Except.error ()`. -/
def addMessage (now : Nat) (s : Store) (id role : String)
    (content : Option String) : Store × Except Unit Message :=
  match mget s id with
  | some conv =>
      let message : Message := ⟨role, content, now⟩
      let msgs := clipMessages (conv.messages ++ [message])
      (mset s id ⟨msgs, conv.createdAt, now⟩, Except.ok message)
  | none =>
      let r := createConversation now s id
      (r.1, Except.error ())

/-- `deleteConversation(conversationId)` (`conversationService.js` lines
61-67): removes the entry, reporting whether something was removed. -/
def deleteConversation (s : Store) (id : String) : Store × Bool :=
  (mdelete s id, (mget s id).isSome)

/-- `cleanupExpiredConversations()` (`conversationService.js` lines
69-83): deletes every entry with `now - lastAccessed > conversationExpiry`
(truncated natural subtraction matches the JavaScript number subtraction
because `lastAccessed` is always a past `Date.now()` value). -/
def cleanupExpiredConversations (now : Nat) (s : Store) : Store :=
  s.filter (fun p => !decide (conversationExpiry < now - p.2.lastAccessed))

/-! ### JavaScript string primitives

The streaming parser uses `split('\n')`, `startsWith`, `includes` and
`slice(6)`.  They are modelled over the character list of the string so
that every definition evaluates inside the kernel. -/

/-- Accumulator loop for `split('\n')`. -/
def splitLinesAux : List Char → List Char → List String
  | [], acc => [String.mk acc.reverse]
  | c :: cs, acc =>
      if c = '\n' then String.mk acc.reverse :: splitLinesAux cs []
      else splitLinesAux cs (c :: acc)

/-- JavaScript `s.split('\n')` (`openRouterService.js` line 162). -/
def jsSplitNewline (s : String) : List String := splitLinesAux s.data []

/-- JavaScript `line.startsWith(pre)`. -/
def jsStartsWith (s pre : String) : Bool := pre.data.isPrefixOf s.data

/-- Occurrence of `pat` inside a character list (some suffix has `pat` as
a leading segment). -/
def listOccurs (pat : List Char) : List Char → Bool
  | [] => pat.isPrefixOf []
  | c :: cs => pat.isPrefixOf (c :: cs) || listOccurs pat cs

/-- JavaScript `line.includes(pat)`. -/
def jsIncludes (s pat : String) : Bool := listOccurs pat.data s.data

/-- JavaScript `line.slice(n)` for a non-negative `n`. -/
def jsSliceFrom (s : String) (n : Nat) : String := String.mk (s.data.drop n)

/-! ### Relay engine (`src/services/openRouterService.js`) -/

/-- Entry of the upstream prompt array (`messages` in the request body). -/
structure PromptMsg where
  role : String
  content : String
deriving Repr, DecidableEq

/-- Prompt construction of `sendMessage` (`openRouterService.js` lines
57-71): the system prompt is pushed only when `systemPrompt` is truthy
(absent and empty-string values are skipped), then the user message is
pushed.  No session history and no default persona prompt appear. -/
def buildSendMessages (systemPrompt : Option String) (message : String) :
    List PromptMsg :=
  (match systemPrompt with
   | some sp => if sp = "" then [] else [⟨"system", sp⟩]
   | none => []) ++ [⟨"user", message⟩]

/-- Outcome of the upstream HTTP call, the opaque external collaborator:
`Except.ok text` models a 200 response whose
`choices[0].message.content` is `text`; `Except.error` models an axios
rejection. -/
inductive UpstreamErr where
  | unauthorized
  | rateLimited
  | timedOut
  | other (msg : String)
deriving Repr, DecidableEq

/-- The `data` object of a successful `sendMessage` resolution
(`openRouterService.js` lines 91-98); fields not read by the server
(`usage`, `model`, attribution) are omitted. -/
structure SendData where
  response : String
deriving Repr, DecidableEq

/-- Resolution value of `sendMessage` (`openRouterService.js` lines
89-99 on success, 120-125 on failure).  The function never rejects: both
branches return an object. -/
structure SendResult where
  success : Bool
  data : Option SendData
  error : Option String
deriving Repr, DecidableEq

/-- Error message chosen by the catch block of `sendMessage`
(`openRouterService.js` lines 104-118). -/
def sendMessageErrorText : UpstreamErr → String
  | .unauthorized => "Invalid Open Router API key"
  | .rateLimited => "Rate limit exceeded for Open Router"
  | .timedOut => "Open Router request timeout"
  | .other m => "Open Router service error: " ++ m

/-- `sendMessage` (`openRouterService.js` lines 55-127), as a function of
the upstream outcome: on success it resolves to
`{ success: true, data: { response } }`; on any error it resolves to
`{ success: false, error }` — it never throws. -/
def sendMessage (outcome : Except UpstreamErr String) : SendResult :=
  match outcome with
  | .ok text => ⟨true, some ⟨text⟩, none⟩
  | .error e => ⟨false, none, some (sendMessageErrorText e)⟩

/-- Models the JavaScript property read `aiResponse.response` performed by
the server (`server.js` lines 267 and 272) on the value `sendMessage`
resolves to.  Neither shape of `SendResult` carries a top-level
`response` property (the reply text sits at `data.response`), so the read
yields `undefined`, modelled as `none`. -/
def SendResult.responseField (_r : SendResult) : Option String := none

/-- Events emitted by the upstream axios response stream inside
`streamMessage`: a `data` chunk, the `end` event, or the `error` event. -/
inductive UpEvent where
  | data (chunk : String)
  | ended
  | errored
deriving Repr, DecidableEq

/-- Callback invocations performed by `streamMessage`: `onChunk`,
`onComplete` (with the accumulated `fullResponse`), `onError`. -/
inductive Sink where
  | chunk (c : String)
  | complete (full : String)
  | error
deriving Repr, DecidableEq

/-- Body of the per-line loop of the `data` handler
(`openRouterService.js` lines 164-178).  The accumulator carries
`fullResponse` and the callback trace.  `parse` models
`JSON.parse(line.slice(6)).choices[0]?.delta?.content`: `none` stands
both for a `JSON.parse` throw (caught and ignored, line 174) and for an
absent delta content; the explicit empty-string test models the JavaScript
truthiness guard `if (content)` on line 170. -/
def processLine (parse : String → Option String) (acc : String × List Sink)
    (line : String) : String × List Sink :=
  if jsStartsWith line "data: " && !(jsIncludes line "[DONE]") then
    match parse (jsSliceFrom line 6) with
    | some content =>
        if content = "" then acc
        else (acc.1 ++ content, acc.2 ++ [Sink.chunk content])
    | none => acc
  else acc

/-- The `data` handler (`openRouterService.js` lines 161-179): split the
chunk on newlines and run the per-line loop. -/
def processData (parse : String → Option String) (acc : String × List Sink)
    (chunk : String) : String × List Sink :=
  (jsSplitNewline chunk).foldl (processLine parse) acc

/-- One upstream stream event as handled by the listeners registered in
`streamMessage` (`openRouterService.js` lines 161-193): `data`
accumulates fragments, `end` fires `onComplete` with `fullResponse`,
`error` fires `onError`. -/
def streamStep (parse : String → Option String) (acc : String × List Sink) :
    UpEvent → String × List Sink
  | .data ch => processData parse acc ch
  | .ended => (acc.1, acc.2 ++ [Sink.complete acc.1])
  | .errored => (acc.1, acc.2 ++ [Sink.error])

/-- `streamMessage` (`openRouterService.js` lines 138-199) driven by a
list of upstream events, starting from the empty `fullResponse` declared
on line 159.  The method contains no reference to the conversation store
(no `ConversationService` call occurs anywhere in lines 138-199), so the
store component passes through unchanged; it is carried here so that
store-related properties of a streaming relay can be stated. -/
def streamMessage (parse : String → Option String) (store : Store)
    (events : List UpEvent) : Store × String × List Sink :=
  (store, events.foldl (streamStep parse) ("", []))

/-! ### Orchestrator (`src/server.js`) -/

/-- Socket emissions of the chat handler.  `sessionBusy` is modelled from
the spec: the specification describes a `SessionBusy` rejection for a
request arriving while the same session is in flight, but no code in the
repository constructs or emits any such condition; the constructor exists
so that its absence from every reachable trace can be stated. -/
inductive SocketEvent where
  | errorEvt (code : String)
  | processingStart
  | chatResponse (response : Option String)
  | sessionBusy
deriving Repr, DecidableEq

/-- First half of `handleChatMessage` (`server.js` lines 231-258), up to
its only suspension point (the `await` on line 261): input validation
(lines 235-249), the `processing_start` emission (line 254), and the
append of the user message (line 258).  The returned flag tells whether
execution reaches the upstream call; a `TypeError` from `addMessage` is
caught by the catch block on lines 281-289, which emits an
`AI_SERVICE_ERROR` event. -/
def chatPhase1 (now : Nat) (s : Store) (id msg : String) :
    Store × List SocketEvent × Bool :=
  if msg = "" then (s, [SocketEvent.errorEvt "INVALID_MESSAGE_FORMAT"], false)
  else if 4000 < msg.length then
    (s, [SocketEvent.errorEvt "MESSAGE_TOO_LONG"], false)
  else
    let r := addMessage now s id "user" (some msg)
    match r.2 with
    | .error _ =>
        (r.1, [SocketEvent.processingStart,
               SocketEvent.errorEvt "AI_SERVICE_ERROR"], false)
    | .ok _ => (r.1, [SocketEvent.processingStart], true)

/-- Second half of `handleChatMessage` (`server.js` lines 261-289), after
the upstream call resolves: append the assistant message with content
`aiResponse.response` (line 267; `undefined`, see
`SendResult.responseField`), then emit `chat_response` whose `response`
field is the same `undefined` read (line 272).  Since `sendMessage` never
rejects, the catch block can only be reached by a `TypeError` from
`addMessage`. -/
def chatPhase2 (now : Nat) (s : Store) (id : String)
    (outcome : Except UpstreamErr String) : Store × List SocketEvent :=
  let aiResponse := sendMessage outcome
  let r := addMessage now s id "assistant" aiResponse.responseField
  match r.2 with
  | .error _ => (r.1, [SocketEvent.errorEvt "AI_SERVICE_ERROR"])
  | .ok _ => (r.1, [SocketEvent.chatResponse aiResponse.responseField])

/-- `handleChatMessage` (`server.js` lines 231-290) run to completion:
phase one, then — when the upstream call is reached — phase two with the
upstream outcome.  `now1` and `now2` are the clock readings at the two
`Date.now()` sites. -/
def handleChatMessage (now1 now2 : Nat) (s : Store) (id msg : String)
    (outcome : Except UpstreamErr String) : Store × List SocketEvent :=
  let r1 := chatPhase1 now1 s id msg
  if r1.2.2 then
    let r2 := chatPhase2 now2 r1.1 id outcome
    (r2.1, r1.2.1 ++ r2.2)
  else (r1.1, r1.2.1)

/-- Interleaved execution of two `handleChatMessage` invocations on the
same session, in the schedule the single-threaded event loop produces
when the second message arrives while the first upstream call is pending:
both first halves run, then each second half as its upstream call
resolves.  Returns the final store and the two per-request event
traces. -/
def twoConcurrentChat (n1 n2 n3 n4 : Nat) (s : Store) (id m1 m2 : String)
    (o1 o2 : Except UpstreamErr String) :
    Store × List SocketEvent × List SocketEvent :=
  let r1 := chatPhase1 n1 s id m1
  let r2 := chatPhase1 n2 r1.1 id m2
  let r3 := if r1.2.2 then chatPhase2 n3 r2.1 id o1 else (r2.1, [])
  let r4 := if r2.2.2 then chatPhase2 n4 r3.1 id o2 else (r3.1, [])
  (r4.1, r1.2.1 ++ r3.2, r2.2.1 ++ r4.2)

@[simp] theorem mget_nil (key : String) : mget [] key = none := rfl

theorem mget_mset_self (s : Store) (k : String) (v : Conversation) :
    mget (mset s k v) k = some v := by
  induction s with
  | nil => simp [mget, mset]
  | cons hd tl ih =>
      by_cases h : hd.1 = k
      · simp [mget, mset, h]
      · simp [mget, mset, h, ih]

theorem mget_mset_ne (s : Store) (k k' : String) (v : Conversation)
    (h : k ≠ k') : mget (mset s k v) k' = mget s k' := by
  induction s with
  | nil => simp [mget, mset, h]
  | cons hd tl ih =>
      by_cases hh : hd.1 = k
      · simp [mget, mset, hh, h]
      · by_cases hk : hd.1 = k'
        · simp [mget, mset, hh, hk, Ne.symm h]
        · simp [mget, mset, hh, hk, ih]

theorem mset_mset_self (s : Store) (k : String) (v w : Conversation) :
    mset (mset s k v) k w = mset s k w := by
  induction s with
  | nil => simp [mset]
  | cons hd tl ih =>
      by_cases h : hd.1 = k
      · simp [mset, h]
      · simp [mset, h, ih]

theorem mget_eq_none_of_not_mem (s : Store) (id : String)
    (h : id ∉ s.map Prod.fst) : mget s id = none := by
  induction s with
  | nil => rfl
  | cons hd tl ih =>
      obtain ⟨k, c⟩ := hd
      rw [List.map_cons, List.mem_cons] at h
      push_neg at h
      rw [mget, if_neg (fun e => h.1 e.symm)]
      exact ih h.2

theorem mget_eq_none_of_filter (p : String × Conversation → Bool)
    (s : Store) (id : String) (h : mget s id = none) :
    mget (s.filter p) id = none := by
  induction s with
  | nil => simp
  | cons hd tl ih =>
      obtain ⟨k, c⟩ := hd
      rw [mget] at h
      by_cases hk : k = id
      · rw [if_pos hk] at h
        exact absurd h (by simp)
      · rw [if_neg hk] at h
        rw [List.filter_cons]
        split
        · rw [mget, if_neg hk]
          exact ih h
        · exact ih h

/-- C3: the claim states that `addMessage` on an id absent from the store
behaves like create-then-append, returning normally and leaving the
session with exactly the one new message.  The code instead assigns the
return value of `createConversation` — which is the messages array, not
the conversation record — to `conversation`, so
`conversation.messages.push(message)` dereferences `messages` on an
array, which is `undefined`, and raises a `TypeError`
(`conversationService.js` lines 37-39 and 48).  Evaluated at the failing
input (empty store, `addMessage("c1", "user", "hi")` at time 100), the
call raises (modelled `Except.error ()`) and leaves the session in the
store with an empty message list rather than one message. -/
theorem addMessage_unknown_id_raises :
    addMessage 100 [] "c1" "user" (some "hi") =
      ([("c1", Conversation.mk [] 100 100)], Except.error ()) := rfl

/-- C9 counterexample: the claim states that `createConversation` on an
existing, non-expired id returns the session with every field —
`messages`, `createdAt`, `lastAccess` — unchanged.  At the concrete store
holding session `"c1"` with `lastAccessed = 5` and clock `now = 10`
(idle time well under the TTL), the call returns with `lastAccessed`
rewritten to 10, because `createConversation` ends in `getConversation`,
which touches `lastAccessed` on every hit
(`conversationService.js` lines 22 and 28). -/
theorem createConversation_touch_counterexample :
    createConversation 10 [("c1", Conversation.mk [] 0 5)] "c1" =
      ([("c1", Conversation.mk [] 0 10)], some []) ∧
    Conversation.mk ([] : List Message) 0 10 ≠ Conversation.mk [] 0 5 := by
  decide

/-- C9 amended: `createConversation` performs no expiry check; if the id
already exists (expired or not) it returns the existing session's message
list with `messages` and `createdAt` unchanged but `lastAccessed` updated
to now; otherwise it inserts a fresh empty session with
`createdAt = lastAccessed = now` and returns its empty message list. -/
theorem createConversation_amended (now : Nat) (s : Store) (id : String) :
    (∀ conv, mget s id = some conv →
      createConversation now s id =
        (mset s id { conv with lastAccessed := now }, some conv.messages)) ∧
    (mget s id = none →
      createConversation now s id =
        (mset s id (Conversation.mk [] now now), some [])) := by
  constructor
  · intro conv hconv
    unfold createConversation getConversation
    simp [hconv]
  · intro hnone
    unfold createConversation getConversation
    simp [hnone, mget_mset_self, mset_mset_self]

/-- C9 amended, evaluated: creating a fresh id inserts the empty session
stamped with the current clock, and re-creating an existing id keeps its
messages and creation time while touching `lastAccessed`. -/
theorem createConversation_amended_witness :
    createConversation 7 [] "c1" = ([("c1", Conversation.mk [] 7 7)], some []) ∧
    createConversation 9 [("c1", Conversation.mk [] 7 7)] "c1" =
      ([("c1", Conversation.mk [] 7 9)], some []) :=
  ⟨(createConversation_amended 7 [] "c1").2 rfl,
   (createConversation_amended 9 [("c1", Conversation.mk [] 7 7)] "c1").1
     (Conversation.mk [] 7 7) rfl⟩

/-- C8 counterexample: the claim states that a `get` on a session whose
idle time already exceeds the TTL resolves as not-found.  At the concrete
store holding session `"c1"` with `lastAccessed = 0` and clock
`now = 1800001` (idle 1800001 ms, TTL 1800000 ms), `getConversation`
still returns the stored messages — it contains no expiry check
(`conversationService.js` lines 25-32). -/
theorem getConversation_expired_counterexample :
    conversationExpiry < 1800001 - 0 ∧
    (getConversation 1800001
        [("c1", Conversation.mk [Message.mk "user" (some "hi") 0] 0 0)]
        "c1").2 = some [Message.mk "user" (some "hi") 0] := by
  decide

/-- C8 amended: a read never resolves a logically-expired session as
not-found — `getConversation` returns the stored messages for any present
id, refreshing `lastAccessed`; eviction is performed solely by the
periodic sweep, which (over a store with distinct ids) retains exactly
the sessions with `now - lastAccessed ≤ TTL`. -/
theorem getConversation_and_sweep_amended (now : Nat) (s : Store) (id : String) :
    (∀ conv, mget s id = some conv →
      getConversation now s id =
        (mset s id { conv with lastAccessed := now }, some conv.messages)) ∧
    ((s.map Prod.fst).Nodup → ∀ conv,
      (mget (cleanupExpiredConversations now s) id = some conv ↔
        mget s id = some conv ∧ now - conv.lastAccessed ≤ conversationExpiry)) := by
  constructor
  · intro conv hconv
    unfold getConversation
    simp [hconv]
  · intro hnd conv
    induction s with
    | nil => simp [cleanupExpiredConversations, mget]
    | cons hd tl ih =>
        obtain ⟨k, c⟩ := hd
        rw [List.map_cons, List.nodup_cons] at hnd
        unfold cleanupExpiredConversations at ih ⊢
        rw [List.filter_cons]
        by_cases hk : k = id
        · subst hk
          by_cases hexp : conversationExpiry < now - c.lastAccessed
          · rw [if_neg (by simp [hexp])]
            have htl : mget tl k = none := mget_eq_none_of_not_mem tl k hnd.1
            rw [mget_eq_none_of_filter _ _ _ htl]
            constructor
            · intro h
              exact absurd h (by simp)
            · rintro ⟨hg, hfresh⟩
              rw [mget, if_pos rfl] at hg
              obtain rfl : c = conv := by injection hg
              omega
          · rw [if_pos (by simp [hexp])]
            rw [mget, if_pos rfl, mget, if_pos rfl]
            constructor
            · intro h
              obtain rfl : c = conv := by injection h
              exact ⟨rfl, by omega⟩
            · rintro ⟨h, _⟩
              exact h
        · rw [mget, if_neg hk]
          split
          · rw [mget, if_neg hk]
            exact ih hnd.2
          · exact ih hnd.2

/-- C8 amended, evaluated: the sweep at `now = 1800001` deletes the
session idle since time 0 and keeps the session touched at time 2, and a
read of a present session returns its messages while touching
`lastAccessed`. -/
theorem getConversation_and_sweep_amended_witness :
    getConversation 3 [("c1", Conversation.mk [] 0 1)] "c1" =
      ([("c1", Conversation.mk [] 0 3)], some []) ∧
    ¬ (mget (cleanupExpiredConversations 1800001
        [("a", Conversation.mk [] 0 0), ("b", Conversation.mk [] 0 2)]) "a" =
          some (Conversation.mk [] 0 0)) ∧
    mget (cleanupExpiredConversations 1800001
        [("a", Conversation.mk [] 0 0), ("b", Conversation.mk [] 0 2)]) "b" =
      some (Conversation.mk [] 0 2) := by
  refine ⟨(getConversation_and_sweep_amended 3 [("c1", Conversation.mk [] 0 1)]
      "c1").1 (Conversation.mk [] 0 1) rfl, ?_, ?_⟩
  · intro h
    have := ((getConversation_and_sweep_amended 1800001
        [("a", Conversation.mk [] 0 0), ("b", Conversation.mk [] 0 2)] "a").2
        (by decide) (Conversation.mk [] 0 0)).mp h
    have h2 := this.2
    simp [conversationExpiry] at h2
  · exact ((getConversation_and_sweep_amended 1800001
        [("a", Conversation.mk [] 0 0), ("b", Conversation.mk [] 0 2)] "b").2
        (by decide) (Conversation.mk [] 0 2)).mpr ⟨by decide, by decide⟩

/-! ### C1: bounded history under append sequences -/

/-- The message record `addMessage` builds from one call's arguments
`(now, role, content)`. -/
def mkMessage (inp : Nat × String × Option String) : Message :=
  ⟨inp.2.1, inp.2.2, inp.1⟩

/-- A sequence of `addMessage` calls on one session, threading the store;
each element carries the clock reading, role and content of one call. -/
def runAppends (s : Store) (id : String)
    (inputs : List (Nat × String × Option String)) : Store :=
  inputs.foldl (fun st inp => (addMessage inp.1 st id inp.2.1 inp.2.2).1) s

/-- Effect of one (successful) `addMessage` call on the message list. -/
def stepMsgs (ms : List Message) (inp : Nat × String × Option String) :
    List Message :=
  clipMessages (ms ++ [mkMessage inp])

theorem clipMessages_eq_drop (l : List Message) :
    clipMessages l = l.drop (l.length - maxMessagesPerConversation) := by
  unfold clipMessages
  split
  · rfl
  · rename_i h
    rw [Nat.sub_eq_zero_of_le (Nat.le_of_not_lt h), List.drop_zero]

theorem clipMessages_length_le (l : List Message) :
    (clipMessages l).length ≤ maxMessagesPerConversation := by
  rw [clipMessages_eq_drop, List.length_drop]
  omega

theorem clipMessages_clip_append (xs ys : List Message) :
    clipMessages (clipMessages xs ++ ys) = clipMessages (xs ++ ys) := by
  rw [clipMessages_eq_drop, clipMessages_eq_drop, clipMessages_eq_drop,
      List.drop_append_eq_append_drop, List.drop_append_eq_append_drop,
      List.length_append, List.length_append, List.length_drop,
      List.drop_drop]
  congr 2 <;> omega

theorem foldl_stepMsgs (inputs : List (Nat × String × Option String)) :
    ∀ ms : List Message, ms.length ≤ maxMessagesPerConversation →
      inputs.foldl stepMsgs ms = clipMessages (ms ++ inputs.map mkMessage) := by
  induction inputs with
  | nil =>
      intro ms h
      rw [List.foldl_nil, List.map_nil, List.append_nil, clipMessages_eq_drop,
          Nat.sub_eq_zero_of_le h, List.drop_zero]
  | cons i rest ih =>
      intro ms h
      rw [List.foldl_cons]
      have hstep : stepMsgs ms i = clipMessages (ms ++ [mkMessage i]) := rfl
      rw [hstep, ih _ (clipMessages_length_le _), clipMessages_clip_append,
          List.append_assoc, List.singleton_append, List.map_cons]

theorem runAppends_mget (id : String)
    (inputs : List (Nat × String × Option String)) :
    ∀ (s : Store) (conv : Conversation), mget s id = some conv →
      ∃ la, mget (runAppends s id inputs) id =
        some (Conversation.mk (inputs.foldl stepMsgs conv.messages)
          conv.createdAt la) := by
  induction inputs with
  | nil =>
      intro s conv h
      exact ⟨conv.lastAccessed, by rw [runAppends, List.foldl_nil, List.foldl_nil, h]⟩
  | cons i rest ih =>
      intro s conv h
      have hstore : (addMessage i.1 s id i.2.1 i.2.2).1 =
          mset s id (Conversation.mk (stepMsgs conv.messages i) conv.createdAt i.1) := by
        unfold addMessage
        rw [h]
        rfl
      have hnext : mget (addMessage i.1 s id i.2.1 i.2.2).1 id =
          some (Conversation.mk (stepMsgs conv.messages i) conv.createdAt i.1) := by
        rw [hstore, mget_mset_self]
      obtain ⟨la, hla⟩ := ih (addMessage i.1 s id i.2.1 i.2.2).1
        (Conversation.mk (stepMsgs conv.messages i) conv.createdAt i.1) hnext
      exact ⟨la, by rw [runAppends, List.foldl_cons]; exact hla⟩

/-- C1: for a session present in the store with empty history (the server
creates every conversation on connect, `server.js` line 160, before any
message is handled), any sequence of `addMessage` calls leaves the stored
history equal to the most recent `maxMessagesPerConversation` of the
appended messages, in insertion order, and its length never exceeds that
maximum (`conversationService.js` lines 48-53). -/
theorem addMessage_history_bounded (s : Store) (id : String)
    (conv : Conversation) (inputs : List (Nat × String × Option String))
    (hget : mget s id = some conv) (hempty : conv.messages = []) :
    ∃ conv2, mget (runAppends s id inputs) id = some conv2 ∧
      conv2.messages = (inputs.map mkMessage).drop
        (inputs.length - maxMessagesPerConversation) ∧
      conv2.messages.length ≤ maxMessagesPerConversation := by
  obtain ⟨la, hla⟩ := runAppends_mget id inputs s conv hget
  have hm : inputs.foldl stepMsgs conv.messages =
      clipMessages (inputs.map mkMessage) := by
    rw [hempty, foldl_stepMsgs inputs [] (by simp), List.nil_append]
  refine ⟨_, hla, ?_, ?_⟩
  · show inputs.foldl stepMsgs conv.messages = _
    rw [hm, clipMessages_eq_drop, List.length_map]
  · show (inputs.foldl stepMsgs conv.messages).length ≤ _
    rw [hm]
    exact clipMessages_length_le _

/-- C1, evaluated: two appends on a fresh session retain both messages in
order, within the bound. -/
theorem addMessage_history_bounded_witness :
    ∃ conv2, mget (runAppends [("c1", Conversation.mk [] 0 0)] "c1"
        [(1, "user", some "a"), (2, "assistant", some "b")]) "c1" = some conv2 ∧
      conv2.messages = ([(1, "user", some "a"), (2, "assistant", some "b")].map
          mkMessage).drop
        ([(1, "user", some "a"), (2, "assistant", some "b")].length -
          maxMessagesPerConversation) ∧
      conv2.messages.length ≤ maxMessagesPerConversation :=
  addMessage_history_bounded [("c1", Conversation.mk [] 0 0)] "c1"
    (Conversation.mk [] 0 0)
    [(1, "user", some "a"), (2, "assistant", some "b")] rfl rfl

/-! ### C4, C5, C10: streaming relay -/

/-- Concatenation of a fragment list, as `fullResponse` accumulates it. -/
def concatAll (l : List String) : String := l.foldl (fun a b => a ++ b) ""

/-- Text increment a single upstream line contributes: `some c` when the
line passes the marker and sentinel tests of `openRouterService.js` line
165 and carries non-empty parsed content, `none` otherwise. -/
def lineFragment (parse : String → Option String) (line : String) :
    Option String :=
  if jsStartsWith line "data: " && !(jsIncludes line "[DONE]") then
    match parse (jsSliceFrom line 6) with
    | some content => if content = "" then none else some content
    | none => none
  else none

/-- Fragments contributed by one `data` chunk: its lines in order, each
mapped through `lineFragment`. -/
def chunkFragments (parse : String → Option String) (chunk : String) :
    List String :=
  (jsSplitNewline chunk).filterMap (lineFragment parse)

/-- Fragments contributed by a list of `data` chunks, in arrival order. -/
def streamFragments (parse : String → Option String) :
    List String → List String
  | [] => []
  | ch :: rest => chunkFragments parse ch ++ streamFragments parse rest

theorem strFoldl_append (l : List String) :
    ∀ a : String, l.foldl (fun x y => x ++ y) a = a ++ concatAll l := by
  induction l with
  | nil =>
      intro a
      simp [concatAll]
  | cons x xs ih =>
      intro a
      rw [List.foldl_cons]
      rw [ih (a ++ x)]
      unfold concatAll
      rw [List.foldl_cons, ih ("" ++ x)]
      simp [concatAll, String.append_assoc]

theorem concatAll_cons (x : String) (xs : List String) :
    concatAll (x :: xs) = x ++ concatAll xs := by
  unfold concatAll
  rw [List.foldl_cons, strFoldl_append]
  simp [concatAll]

theorem concatAll_append (l1 l2 : List String) :
    concatAll (l1 ++ l2) = concatAll l1 ++ concatAll l2 := by
  induction l1 with
  | nil => simp [concatAll]
  | cons x xs ih =>
      rw [List.cons_append, concatAll_cons, concatAll_cons, ih,
          String.append_assoc]

theorem processLine_eq (parse : String → Option String)
    (acc : String × List Sink) (line : String) :
    processLine parse acc line =
      match lineFragment parse line with
      | some c => (acc.1 ++ c, acc.2 ++ [Sink.chunk c])
      | none => acc := by
  unfold processLine lineFragment
  by_cases h : (jsStartsWith line "data: " && !(jsIncludes line "[DONE]")) = true
  · rw [if_pos h, if_pos h]
    cases parse (jsSliceFrom line 6) with
    | none => rfl
    | some c =>
        by_cases hc : c = ""
        · simp [hc]
        · simp [hc]
  · rw [if_neg h, if_neg h]

theorem foldl_processLine (parse : String → Option String)
    (lines : List String) :
    ∀ acc : String × List Sink,
      lines.foldl (processLine parse) acc =
        (acc.1 ++ concatAll (lines.filterMap (lineFragment parse)),
         acc.2 ++ (lines.filterMap (lineFragment parse)).map Sink.chunk) := by
  induction lines with
  | nil =>
      intro acc
      simp [concatAll]
  | cons l ls ih =>
      intro acc
      rw [List.foldl_cons, processLine_eq]
      cases hf : lineFragment parse l with
      | none =>
          rw [ih acc, List.filterMap_cons_none hf]
      | some c =>
          rw [ih (acc.1 ++ c, acc.2 ++ [Sink.chunk c]),
              List.filterMap_cons_some hf]
          simp [concatAll_cons, String.append_assoc]

theorem foldl_streamStep_data (parse : String → Option String)
    (chs : List String) :
    ∀ acc : String × List Sink,
      (chs.map UpEvent.data).foldl (streamStep parse) acc =
        (acc.1 ++ concatAll (streamFragments parse chs),
         acc.2 ++ (streamFragments parse chs).map Sink.chunk) := by
  induction chs with
  | nil =>
      intro acc
      simp [streamFragments, concatAll]
  | cons ch rest ih =>
      intro acc
      rw [List.map_cons, List.foldl_cons]
      have hd : streamStep parse acc (UpEvent.data ch) =
          (jsSplitNewline ch).foldl (processLine parse) acc := rfl
      rw [hd, foldl_processLine, ih]
      simp [streamFragments, chunkFragments, concatAll_append,
            String.append_assoc, List.map_append, List.append_assoc]

/-- C4 counterexample: the claim states that after a fragment sequence
followed by the terminal sentinel the session gains exactly one new
assistant message equal to the concatenation.  At the concrete input —
store holding the empty session `"c1"`, upstream delivering one
well-formed record carrying fragment `"ab"` and then ending —
`streamMessage` fires `onChunk("ab")` then `onComplete` with full text
`"ab"` exactly as claimed, but the store is returned untouched: the
session still has zero messages, because `streamMessage`
(`openRouterService.js` lines 138-199) never calls the conversation
store. -/
theorem streamMessage_no_append_counterexample :
    streamMessage (fun p => some p) [("c1", Conversation.mk [] 0 0)]
        [UpEvent.data "data: ab", UpEvent.ended] =
      ([("c1", Conversation.mk [] 0 0)], "ab",
       [Sink.chunk "ab", Sink.complete "ab"]) ∧
    mget (streamMessage (fun p => some p) [("c1", Conversation.mk [] 0 0)]
        [UpEvent.data "data: ab", UpEvent.ended]).1 "c1" =
      some (Conversation.mk [] 0 0) := by
  constructor <;> rfl

/-- C4 amended: for any upstream chunk sequence followed by the terminal
`end` event, `onChunk` is invoked exactly once per extracted fragment, in
arrival order, then `onComplete` exactly once with the concatenation of
those fragments (malformed or skipped records contribute nothing, see the
C10 theorem); but no assistant message is appended to any session — the
store passes through `streamMessage` unchanged. -/
theorem streamMessage_complete_contract (parse : String → Option String)
    (store : Store) (chs : List String) :
    streamMessage parse store (chs.map UpEvent.data ++ [UpEvent.ended]) =
      (store, concatAll (streamFragments parse chs),
       (streamFragments parse chs).map Sink.chunk ++
         [Sink.complete (concatAll (streamFragments parse chs))]) := by
  unfold streamMessage
  rw [List.foldl_append, foldl_streamStep_data]
  simp [streamStep]

/-- C5: when the upstream stream fails after delivering its chunks (the
event sequence ends in `error` instead of `end`), `onChunk` has been
called exactly once per extracted fragment in order, `onError` fires
exactly once, `onComplete` never fires, and the conversation store is
untouched (no assistant message is appended; the code maintains no
per-session in-flight flag, so no session is left blocked). -/
theorem streamMessage_error_contract (parse : String → Option String)
    (store : Store) (chs : List String) :
    streamMessage parse store (chs.map UpEvent.data ++ [UpEvent.errored]) =
      (store, concatAll (streamFragments parse chs),
       (streamFragments parse chs).map Sink.chunk ++ [Sink.error]) ∧
    ∀ full, Sink.complete full ∉
      (streamFragments parse chs).map Sink.chunk ++ [Sink.error] := by
  constructor
  · unfold streamMessage
    rw [List.foldl_append, foldl_streamStep_data]
    simp [streamStep]
  · intro full h
    rcases List.mem_append.mp h with h1 | h1
    · obtain ⟨c, _, hc⟩ := List.mem_map.mp h1
      exact absurd hc (by simp)
    · simp at h1

/-- C5, evaluated: a stream failing after one delivered fragment fires
the chunk callback once and then the error callback, leaving the store
untouched. -/
theorem streamMessage_error_contract_witness :
    streamMessage (fun p => some p) [("c1", Conversation.mk [] 0 0)]
        (["data: ab"].map UpEvent.data ++ [UpEvent.errored]) =
      ([("c1", Conversation.mk [] 0 0)],
       concatAll (streamFragments (fun p => some p) ["data: ab"]),
       (streamFragments (fun p => some p) ["data: ab"]).map Sink.chunk ++
         [Sink.error]) ∧
    ∀ full, Sink.complete full ∉
      (streamFragments (fun p => some p) ["data: ab"]).map Sink.chunk ++
        [Sink.error] :=
  streamMessage_error_contract (fun p => some p)
    [("c1", Conversation.mk [] 0 0)] ["data: ab"]

/-- C10: a single upstream line either contributes nothing (leaving both
the accumulated response and the callback trace unchanged) or exactly one
non-empty `onChunk` call; in particular a line not starting with the
`data: ` marker, a line containing `[DONE]`, a line whose payload fails
to parse, and a line whose delta content is empty all contribute
nothing. -/
theorem processLine_skip_and_nonempty (parse : String → Option String)
    (acc : String × List Sink) (line : String) :
    ((processLine parse acc line = acc) ∨
      ∃ c, c ≠ "" ∧ processLine parse acc line =
        (acc.1 ++ c, acc.2 ++ [Sink.chunk c])) ∧
    (jsStartsWith line "data: " = false → processLine parse acc line = acc) ∧
    (jsIncludes line "[DONE]" = true → processLine parse acc line = acc) ∧
    (parse (jsSliceFrom line 6) = none → processLine parse acc line = acc) ∧
    (parse (jsSliceFrom line 6) = some "" →
      processLine parse acc line = acc) := by
  refine ⟨?_, ?_, ?_, ?_, ?_⟩
  · rw [processLine_eq]
    cases hf : lineFragment parse line with
    | none => exact Or.inl rfl
    | some c =>
        refine Or.inr ⟨c, ?_, rfl⟩
        unfold lineFragment at hf
        by_cases h : (jsStartsWith line "data: " && !(jsIncludes line "[DONE]")) = true
        · rw [if_pos h] at hf
          cases hp : parse (jsSliceFrom line 6) with
          | none =>
              rw [hp] at hf
              exact absurd hf (by simp)
          | some d =>
              rw [hp] at hf
              by_cases hd : d = ""
              · simp [hd] at hf
              · simp [hd] at hf
                exact hf ▸ hd
        · rw [if_neg h] at hf
          exact absurd hf (by simp)
  · intro h
    unfold processLine
    rw [if_neg (by simp [h])]
  · intro h
    unfold processLine
    rw [if_neg (by simp [h])]
  · intro h
    unfold processLine
    by_cases hs : (jsStartsWith line "data: " && !(jsIncludes line "[DONE]")) = true
    · rw [if_pos hs, h]
    · rw [if_neg hs]
  · intro h
    unfold processLine
    by_cases hs : (jsStartsWith line "data: " && !(jsIncludes line "[DONE]")) = true
    · rw [if_pos hs, h]
      simp
    · rw [if_neg hs]

/-- C10, evaluated: a line without the marker and a line whose payload
fails to parse both leave the accumulator untouched. -/
theorem processLine_skip_and_nonempty_witness :
    processLine (fun p => some p) ("", []) "nope" = ("", []) ∧
    processLine (fun _ => none) ("", []) "data: x" = ("", []) :=
  ⟨(processLine_skip_and_nonempty (fun p => some p) ("", []) "nope").2.1
      (by decide),
   (processLine_skip_and_nonempty (fun _ => none) ("", []) "data: x").2.2.2.1
      rfl⟩

/-! ### C2, C6, C7: relay requests through the chat handler -/

/-- Conversation update performed by a successful `addMessage` on a
present session: push the record, truncate, touch `lastAccessed`. -/
def chatAppend (cv : Conversation) (role : String) (content : Option String)
    (n : Nat) : Conversation :=
  Conversation.mk (clipMessages (cv.messages ++ [Message.mk role content n]))
    cv.createdAt n

theorem chatPhase1_ok (n : Nat) (s : Store) (id msg : String)
    (cv : Conversation) (hget : mget s id = some cv) (hmsg : msg ≠ "")
    (hlen : msg.length ≤ 4000) :
    chatPhase1 n s id msg =
      (mset s id (chatAppend cv "user" (some msg) n),
       [SocketEvent.processingStart], true) := by
  unfold chatPhase1
  rw [if_neg hmsg, if_neg (Nat.not_lt.mpr hlen)]
  unfold addMessage
  rw [hget]
  rfl

theorem chatPhase2_ok (n : Nat) (s : Store) (id : String) (cv : Conversation)
    (o : Except UpstreamErr String) (hget : mget s id = some cv) :
    chatPhase2 n s id o =
      (mset s id (chatAppend cv "assistant" none n),
       [SocketEvent.chatResponse none]) := by
  unfold chatPhase2
  unfold addMessage
  rw [hget]
  rfl

theorem handleChatMessage_run (s : Store) (id msg : String) (cv : Conversation)
    (o : Except UpstreamErr String) (n1 n2 : Nat)
    (hget : mget s id = some cv) (hmsg : msg ≠ "")
    (hlen : msg.length ≤ 4000) :
    handleChatMessage n1 n2 s id msg o =
      (mset s id (chatAppend (chatAppend cv "user" (some msg) n1)
        "assistant" none n2),
       [SocketEvent.processingStart, SocketEvent.chatResponse none]) := by
  have e1 := chatPhase1_ok n1 s id msg cv hget hmsg hlen
  have e2 := chatPhase2_ok n2 (mset s id (chatAppend cv "user" (some msg) n1))
    id (chatAppend cv "user" (some msg) n1) o (mget_mset_self _ _ _)
  unfold handleChatMessage
  rw [e1]
  simp only [e2, mset_mset_self]
  simp

/-- C2 counterexample: the claim states that the upstream prompt is the
optional system prompt — else a default persona prompt — followed by the
most recent `K` history messages, then the new user message.  At the
concrete input (no system prompt, user message `"hi"`, a session whose
history holds one message with content `"past"`), the prompt built by
`sendMessage` (`openRouterService.js` lines 57-71) is the single entry
`user "hi"`: it contains no system-role entry at all and no entry
carrying the history content `"past"`. -/
theorem sendMessage_prompt_counterexample :
    buildSendMessages none "hi" = [PromptMsg.mk "user" "hi"] ∧
    (∀ pm ∈ buildSendMessages none "hi", pm.role ≠ "system") ∧
    (∀ pm ∈ buildSendMessages none "hi", pm.content ≠ "past") := by
  refine ⟨rfl, ?_, ?_⟩ <;> decide

/-- C2 amended: the upstream prompt is the system prompt when provided
and non-empty, followed by the new user message only — no default persona
prompt is substituted and no session history is included (the handler
passes no system prompt, so the server's own requests carry exactly the
single user entry); around the upstream call the server appends the user
message before the call and an assistant entry after it (user first), but
the assistant entry's content is `undefined` rather than the reply text,
because the handler reads `aiResponse.response` while the reply sits at
`aiResponse.data.response`. -/
theorem sendMessage_prompt_amended (sp : Option String) (msg : String)
    (s : Store) (id : String) (cv : Conversation) (t : String) (n1 n2 : Nat)
    (hget : mget s id = some cv) (hmsg : msg ≠ "")
    (hlen : msg.length ≤ 4000) :
    buildSendMessages none msg = [PromptMsg.mk "user" msg] ∧
    (∀ p, sp = some p → p ≠ "" →
      buildSendMessages sp msg =
        [PromptMsg.mk "system" p, PromptMsg.mk "user" msg]) ∧
    handleChatMessage n1 n2 s id msg (Except.ok t) =
      (mset s id (chatAppend (chatAppend cv "user" (some msg) n1)
        "assistant" none n2),
       [SocketEvent.processingStart, SocketEvent.chatResponse none]) := by
  refine ⟨rfl, ?_, handleChatMessage_run s id msg cv (Except.ok t) n1 n2
    hget hmsg hlen⟩
  intro p hp hne
  subst hp
  simp [buildSendMessages, hne]

/-- C2 amended, evaluated on a concrete session and successful reply. -/
theorem sendMessage_prompt_amended_witness :
    buildSendMessages none "hi" = [PromptMsg.mk "user" "hi"] ∧
    (∀ p, (some "sys" : Option String) = some p → p ≠ "" →
      buildSendMessages (some "sys") "hi" =
        [PromptMsg.mk "system" p, PromptMsg.mk "user" "hi"]) ∧
    handleChatMessage 1 2 [("c1", Conversation.mk [] 0 0)] "c1" "hi"
        (Except.ok "yo") =
      (mset [("c1", Conversation.mk [] 0 0)] "c1"
        (chatAppend (chatAppend (Conversation.mk [] 0 0) "user" (some "hi") 1)
          "assistant" none 2),
       [SocketEvent.processingStart, SocketEvent.chatResponse none]) :=
  sendMessage_prompt_amended (some "sys") "hi" [("c1", Conversation.mk [] 0 0)]
    "c1" (Conversation.mk [] 0 0) "yo" 1 2 rfl (by decide) (by decide)

/-- C6 counterexample: the claim states that a failed relay request
surfaces an error and leaves the session history exactly as it was.  At
the concrete input (session `"c1"` with empty history, message `"hi"`,
upstream timing out), the handler emits a normal `chat_response` — no
error event — and the history has gained two entries: the user message
and an assistant entry with undefined content.  `sendMessage` reports
failure through its resolved value rather than a rejection
(`openRouterService.js` lines 120-125), so the catch block of
`handleChatMessage` (`server.js` lines 281-289) never runs. -/
theorem handleChatMessage_failure_counterexample :
    handleChatMessage 1 2 [("c1", Conversation.mk [] 0 0)] "c1" "hi"
        (Except.error UpstreamErr.timedOut) =
      ([("c1", Conversation.mk
          [Message.mk "user" (some "hi") 1, Message.mk "assistant" none 2]
          0 2)],
       [SocketEvent.processingStart, SocketEvent.chatResponse none]) ∧
    ([("c1", Conversation.mk
        [Message.mk "user" (some "hi") 1, Message.mk "assistant" none 2]
        0 2)] : Store) ≠ [("c1", Conversation.mk [] 0 0)] := by
  refine ⟨rfl, ?_⟩
  decide

/-- C6 amended: a relay request is not atomic — for any upstream failure,
the handler leaves the history extended by the user message and an
assistant entry with undefined content (the user message was appended
before the upstream call and the assistant entry unconditionally after
it), and it emits a normal `chat_response` rather than an error event. -/
theorem handleChatMessage_failure_not_atomic (s : Store) (id msg : String)
    (cv : Conversation) (e : UpstreamErr) (n1 n2 : Nat)
    (hget : mget s id = some cv) (hmsg : msg ≠ "")
    (hlen : msg.length ≤ 4000) :
    handleChatMessage n1 n2 s id msg (Except.error e) =
      (mset s id (chatAppend (chatAppend cv "user" (some msg) n1)
        "assistant" none n2),
       [SocketEvent.processingStart, SocketEvent.chatResponse none]) ∧
    ∀ code, SocketEvent.errorEvt code ∉
      (handleChatMessage n1 n2 s id msg (Except.error e)).2 := by
  have h := handleChatMessage_run s id msg cv (Except.error e) n1 n2
    hget hmsg hlen
  refine ⟨h, ?_⟩
  intro code
  rw [h]
  simp

/-- C6 amended, evaluated at a concrete failing request. -/
theorem handleChatMessage_failure_not_atomic_witness :
    handleChatMessage 1 2 [("c1", Conversation.mk [] 0 0)] "c1" "hi"
        (Except.error UpstreamErr.rateLimited) =
      (mset [("c1", Conversation.mk [] 0 0)] "c1"
        (chatAppend (chatAppend (Conversation.mk [] 0 0) "user" (some "hi") 1)
          "assistant" none 2),
       [SocketEvent.processingStart, SocketEvent.chatResponse none]) ∧
    ∀ code, SocketEvent.errorEvt code ∉
      (handleChatMessage 1 2 [("c1", Conversation.mk [] 0 0)] "c1" "hi"
        (Except.error UpstreamErr.rateLimited)).2 :=
  handleChatMessage_failure_not_atomic [("c1", Conversation.mk [] 0 0)] "c1"
    "hi" (Conversation.mk [] 0 0) UpstreamErr.rateLimited 1 2 rfl
    (by decide) (by decide)

/-- C7 counterexample: the claim states that of two concurrent relay
requests on one session exactly one proceeds and the other receives a
`SessionBusy` rejection.  At the concrete input (two valid messages on
session `"c1"`, both upstream calls succeeding), the interleaved
execution completes both requests: each trace is `processing_start`
followed by `chat_response`, no `SessionBusy` condition appears anywhere,
and the history interleaves as user, user, assistant, assistant — the
code performs no in-flight tracking (`server.js` lines 231-290 contain no
such check). -/
theorem twoConcurrentChat_counterexample :
    twoConcurrentChat 1 2 3 4 [("c1", Conversation.mk [] 0 0)] "c1" "hi" "yo"
        (Except.ok "r1") (Except.ok "r2") =
      ([("c1", Conversation.mk
          [Message.mk "user" (some "hi") 1, Message.mk "user" (some "yo") 2,
           Message.mk "assistant" none 3, Message.mk "assistant" none 4]
          0 4)],
       [SocketEvent.processingStart, SocketEvent.chatResponse none],
       [SocketEvent.processingStart, SocketEvent.chatResponse none]) := by
  rfl

/-- C7 amended: the code implements no per-session in-flight tracking —
a relay request arriving while another is in flight on the same session
proceeds normally: in the interleaved execution both requests complete
with `processing_start` then `chat_response`, and neither trace contains
any `SessionBusy` condition. -/
theorem twoConcurrentChat_no_busy (s : Store) (id m1 m2 : String)
    (cv : Conversation) (o1 o2 : Except UpstreamErr String)
    (n1 n2 n3 n4 : Nat) (hget : mget s id = some cv)
    (h1 : m1 ≠ "") (hl1 : m1.length ≤ 4000)
    (h2 : m2 ≠ "") (hl2 : m2.length ≤ 4000) :
    (twoConcurrentChat n1 n2 n3 n4 s id m1 m2 o1 o2).2.1 =
      [SocketEvent.processingStart, SocketEvent.chatResponse none] ∧
    (twoConcurrentChat n1 n2 n3 n4 s id m1 m2 o1 o2).2.2 =
      [SocketEvent.processingStart, SocketEvent.chatResponse none] ∧
    SocketEvent.sessionBusy ∉
      (twoConcurrentChat n1 n2 n3 n4 s id m1 m2 o1 o2).2.1 ∧
    SocketEvent.sessionBusy ∉
      (twoConcurrentChat n1 n2 n3 n4 s id m1 m2 o1 o2).2.2 := by
  have e1 := chatPhase1_ok n1 s id m1 cv hget h1 hl1
  have e2 := chatPhase1_ok n2 (mset s id (chatAppend cv "user" (some m1) n1))
    id m2 (chatAppend cv "user" (some m1) n1) (mget_mset_self _ _ _) h2 hl2
  have e3 := chatPhase2_ok n3
    (mset (mset s id (chatAppend cv "user" (some m1) n1)) id
      (chatAppend (chatAppend cv "user" (some m1) n1) "user" (some m2) n2))
    id (chatAppend (chatAppend cv "user" (some m1) n1) "user" (some m2) n2)
    o1 (mget_mset_self _ _ _)
  have e4 := chatPhase2_ok n4
    (mset (mset (mset s id (chatAppend cv "user" (some m1) n1)) id
        (chatAppend (chatAppend cv "user" (some m1) n1) "user" (some m2) n2))
      id (chatAppend (chatAppend (chatAppend cv "user" (some m1) n1) "user"
        (some m2) n2) "assistant" none n3))
    id (chatAppend (chatAppend (chatAppend cv "user" (some m1) n1) "user"
      (some m2) n2) "assistant" none n3)
    o2 (mget_mset_self _ _ _)
  have key : twoConcurrentChat n1 n2 n3 n4 s id m1 m2 o1 o2 =
      (mset (mset (mset (mset s id (chatAppend cv "user" (some m1) n1)) id
          (chatAppend (chatAppend cv "user" (some m1) n1) "user" (some m2) n2))
        id (chatAppend (chatAppend (chatAppend cv "user" (some m1) n1) "user"
          (some m2) n2) "assistant" none n3))
        id (chatAppend (chatAppend (chatAppend (chatAppend cv "user"
          (some m1) n1) "user" (some m2) n2) "assistant" none n3)
          "assistant" none n4),
       [SocketEvent.processingStart, SocketEvent.chatResponse none],
       [SocketEvent.processingStart, SocketEvent.chatResponse none]) := by
    unfold twoConcurrentChat
    rw [e1]
    simp [e2, e3, e4]
  rw [key]
  refine ⟨rfl, rfl, ?_, ?_⟩ <;> simp

/-- C7 amended, evaluated at two concrete concurrent requests. -/
theorem twoConcurrentChat_no_busy_witness :
    (twoConcurrentChat 1 2 3 4 [("c1", Conversation.mk [] 0 0)] "c1" "hi" "yo"
        (Except.ok "r1") (Except.error UpstreamErr.timedOut)).2.1 =
      [SocketEvent.processingStart, SocketEvent.chatResponse none] ∧
    (twoConcurrentChat 1 2 3 4 [("c1", Conversation.mk [] 0 0)] "c1" "hi" "yo"
        (Except.ok "r1") (Except.error UpstreamErr.timedOut)).2.2 =
      [SocketEvent.processingStart, SocketEvent.chatResponse none] ∧
    SocketEvent.sessionBusy ∉
      (twoConcurrentChat 1 2 3 4 [("c1", Conversation.mk [] 0 0)] "c1" "hi"
        "yo" (Except.ok "r1") (Except.error UpstreamErr.timedOut)).2.1 ∧
    SocketEvent.sessionBusy ∉
      (twoConcurrentChat 1 2 3 4 [("c1", Conversation.mk [] 0 0)] "c1" "hi"
        "yo" (Except.ok "r1") (Except.error UpstreamErr.timedOut)).2.2 :=
  twoConcurrentChat_no_busy [("c1", Conversation.mk [] 0 0)] "c1" "hi" "yo"
    (Conversation.mk [] 0 0) (Except.ok "r1")
    (Except.error UpstreamErr.timedOut) 1 2 3 4 rfl
    (by decide) (by decide) (by decide) (by decide)

end VoiceBackend
